import Mathlib

/-!
Verification of the interaction-to-recording session controller of the
voice-chat application.

The definitions below are a shallow embedding of the JavaScript sources:
  - `public/js/speechRecognition.js` (class `SpeechRecognitionWrapper`),
  - `public/js/app.js` (the press handlers, recognition callbacks and the
    conversation pipeline; the file contains two iterations of the app —
    both are embedded where claims refer to them),
  - `public/js/textToSpeech.js` (class `TextToSpeechWrapper`, unlock logic),
  - the basic-auth middleware (`basicAuth`).

JavaScript handlers run to completion on a single event loop; each handler
is embedded as a pure function from state to state together with the list
of externally visible actions it performs (calls into the underlying
`recognition` object, UI updates, network requests).  Times are natural
numbers in milliseconds (`Date.now()`).  The `setTimeout` watchdog armed in
`stop()` is modelled as a multiset of pending deadlines; the code never
calls `clearTimeout`, so deadlines are removed only when the timer fires.
-/

namespace VoiceChat

/-- One entry of `appState.conversationHistory`: `{role, content}`. -/
structure Message where
  role : String
  content : String
deriving DecidableEq, Repr

/-- Externally visible actions performed by a handler, in order:
calls on the underlying `recognition` object, UI updates, the app-level
`onStart` callback, and pipeline requests. -/
inductive Action where
  /-- `recognition.start()` was called. -/
  | recStart
  /-- `recognition.stop()` was called. -/
  | recStop
  /-- `recognition.abort()` was called. -/
  | recAbort
  /-- `updateStatus(msg)`. -/
  | status (msg : String)
  /-- `updateButtonState(st)`. -/
  | buttonState (st : String)
  /-- `addMessageToUI(role, content)`. -/
  | uiMessage (role content : String)
  /-- the silent `SpeechSynthesisUtterance` probe of `unlockIOSAudio`. -/
  | iosProbe
  /-- the silent `audio.play()` probe of `unlockAudioPlayback`. -/
  | audioProbe
  /-- `API.sendMessageToClaude(message, history)` was issued. -/
  | chatRequest (message : String)
  /-- `API.transcribeAudio(blob)` was issued. -/
  | transcribeRequest
  /-- `textToSpeech.speak(text)` was invoked. -/
  | ttsSpeak (text : String)
deriving DecidableEq, Repr

/-- JavaScript `String.prototype.trim`: strip leading and trailing
whitespace.  Defined on the character list so that it is kernel-computable
(`String.trim` is defined by well-founded recursion on byte positions and
does not reduce). -/
def jsTrim (s : String) : String :=
  String.mk (((s.data.dropWhile Char.isWhitespace).reverse.dropWhile
    Char.isWhitespace).reverse)

/-- Mutable fields of `SpeechRecognitionWrapper` (speechRecognition.js). -/
structure RecState where
  /-- Web Speech API availability (`this.supported`). -/
  supported : Bool
  /-- `this.isRecording`. -/
  isRecording : Bool
  /-- `this.isStarting`: `start()` was called but `onstart` has not fired. -/
  isStarting : Bool
  /-- `this.pendingStop`: stop was requested while starting. -/
  pendingStop : Bool
  /-- `this.collectedTranscript`. -/
  collectedTranscript : String
deriving DecidableEq, Repr

/-- Mutable fields of the app-level `appState` (app.js, second iteration). -/
structure AppState where
  conversationHistory : List Message
  isListening : Bool
  isProcessing : Bool
  spaceKeyPressed : Bool
  recordingRequested : Bool
  /-- `pressStartTime`: `some t` when a press is being timed, `none` for `null`. -/
  pressStartTime : Option Nat
  isHoldMode : Bool
  shouldStopOnRelease : Bool
  silentMode : Bool
deriving DecidableEq, Repr

/-- The combined system state: wrapper, app, the `TextToSpeechWrapper`'s
`iosUnlocked` flag (touched by `handlePressStart`), and the deadlines of
watchdog timers armed by `stop()` and not yet fired (the code stores no
handle and never calls `clearTimeout`). -/
structure Sys where
  /-- the `appState.speechRecognition` wrapper state. -/
  sr : RecState
  app : AppState
  ttsIosUnlocked : Bool
  watchdogs : List Nat
deriving DecidableEq, Repr

/-- `SpeechRecognitionWrapper.start()` (speechRecognition.js lines 174-225),
run atomically.  `permDenied` is the result of the
`navigator.permissions.query` check.  Returns the updated wrapper state, the
boolean the promise resolves to, and the actions performed. -/
def RecState.start (s : RecState) (permDenied : Bool) :
    RecState × Bool × List Action :=
  if !s.supported then (s, false, [])
  else if s.isRecording || s.isStarting then (s, false, [])
  else if permDenied then (s, false, [])
  else ({ s with
          isStarting := true, pendingStop := false,
          collectedTranscript := "" }, true, [.recStart])

/-- `SpeechRecognitionWrapper.stop()` (speechRecognition.js lines 230-277)
at time `now`, acting on the whole system because it arms the watchdog
`setTimeout` with deadline `now + 500`. -/
def Sys.recStop (sys : Sys) (now : Nat) : Sys × List Action :=
  if !sys.sr.supported then (sys, [])
  else if sys.sr.isStarting then
    ({ sys with sr := { sys.sr with pendingStop := true } }, [])
  else if !sys.sr.isRecording then (sys, [])
  else ({ sys with watchdogs := sys.watchdogs ++ [now + 500] }, [.recStop])

/-- `resetToIdle()` (app.js second iteration, lines 1115-1124). -/
def AppState.resetToIdle (a : AppState) : AppState :=
  { a with isProcessing := false, isListening := false,
           recordingRequested := false, pressStartTime := none,
           isHoldMode := false, shouldStopOnRelease := false }

/-- Actions of `resetToIdle()`: button to idle, ready status. -/
def resetToIdleActions : List Action :=
  [.buttonState "idle", .status "Ready - Tap to toggle or hold to talk"]

/-- `recognition.onstart` (speechRecognition.js lines 43-61) composed with
the app-level `onStart` callback (app.js lines 733-738).  If a stop was
pending, `recognition.stop()` is called directly and the handler returns
before invoking `onStart`. -/
def Sys.devStarted (sys : Sys) : Sys × List Action :=
  let rec1 := { sys.sr with
                isStarting := false, isRecording := true,
                collectedTranscript := "" }
  if rec1.pendingStop then
    ({ sys with sr := { rec1 with pendingStop := false } }, [.recStop])
  else
    ({ sys with
       sr := rec1,
       app := { sys.app with isListening := true } },
     [.buttonState "listening", .status "Listening..."])

/-- `recognition.onerror` (speechRecognition.js lines 101-138) composed
with the app-level `onError` callback (app.js lines 763-784): the wrapper
clears its flags, the app clears `recordingRequested`, shows the
classified error status and calls `resetToIdle()`.  The watchdog deadlines
are untouched — the code never cancels the timer. -/
def Sys.devError (sys : Sys) (err : String) : Sys × List Action :=
  let rec1 := { sys.sr with
                isRecording := false, isStarting := false,
                pendingStop := false }
  let msg :=
    if err = "no-speech" then "Error: No speech detected"
    else if err = "audio-capture" then "Error: No microphone found"
    else if err = "not-allowed" then "Error: Microphone permission denied"
    else "Error: Speech recognition failed"
  ({ sys with
     sr := rec1,
     app := ({ sys.app with recordingRequested := false }).resetToIdle },
   [.status msg] ++ resetToIdleActions)

/-- The body of the watchdog `setTimeout` armed in `stop()`
(speechRecognition.js lines 253-265), firing for deadline `d`.  A deadline
that was never armed does not fire; a fired deadline is consumed.  If the
wrapper is still recording or starting, the state is force-reset and
`recognition.abort()` is called; otherwise the timer is a no-op. -/
def Sys.watchdogFire (sys : Sys) (d : Nat) : Sys × List Action :=
  if d ∈ sys.watchdogs then
    let sys1 := { sys with watchdogs := sys.watchdogs.erase d }
    if sys.sr.isRecording || sys.sr.isStarting then
      ({ sys1 with sr := { sys1.sr with
           isRecording := false, isStarting := false,
           pendingStop := false } }, [.recAbort])
    else (sys1, [])
  else (sys, [])

/-- `recognition.onend` (speechRecognition.js lines 140-168) composed with
the app-level callbacks: the wrapper resets its flags, then, when the
trimmed collected transcript is non-empty, calls `onResult` — whose
synchronous prefix (app.js second iteration, lines 741-760) appends the
user turn and starts `processUserMessage` up to its awaited chat call —
then calls `onEnd` (lines 787-791) and clears the transcript.  With an
empty transcript `onResult` is never invoked (only a console warning is
logged). -/
def Sys.devEnd (sys : Sys) : Sys × List Action :=
  let rec1 := { sys.sr with
                isRecording := false, isStarting := false,
                pendingStop := false }
  let finalText := jsTrim sys.sr.collectedTranscript
  let res :=
    if finalText ≠ "" then
      if jsTrim finalText = "" then
        (sys.app.resetToIdle,
         [Action.status "No speech detected. Try again."] ++ resetToIdleActions)
      else
        ({ sys.app with
           conversationHistory :=
             sys.app.conversationHistory ++ [Message.mk "user" finalText],
           isProcessing := true },
         [Action.uiMessage "user" finalText, Action.buttonState "processing",
          Action.status "Processing...", Action.chatRequest finalText])
    else (sys.app, [])
  let app2 := { res.1 with isListening := false, recordingRequested := false }
  ({ sys with
     sr := { rec1 with collectedTranscript := "" },
     app := app2 }, res.2)

/-- `handlePressStart(source)` (app.js second iteration, lines 907-953).
The iOS unlock runs first; a press during processing is ignored; a press
while a recording is requested or listening only marks
`shouldStopOnRelease`; otherwise a fresh session is started.  The source
stores the unawaited promise of `start()` in `started`; the embedding runs
`start()` atomically and takes `started` to be the boolean it resolves to,
as in the awaited first-iteration handlers — the claims under proof do not
depend on the failure branch. -/
def Sys.handlePressStart (sys : Sys) (source : String) (now : Nat)
    (permDenied : Bool) : Sys × List Action :=
  let _ := source
  let pre :=
    if !sys.ttsIosUnlocked then
      ({ sys with ttsIosUnlocked := true }, [Action.iosProbe])
    else (sys, [])
  let sys0 := pre.1
  let acts0 := pre.2
  if sys0.app.isProcessing then (sys0, acts0)
  else
    let app1 := { sys0.app with pressStartTime := some now }
    if app1.recordingRequested || app1.isListening then
      ({ sys0 with app := { app1 with shouldStopOnRelease := true } }, acts0)
    else
      let app2 := { app1 with
                    recordingRequested := true, isHoldMode := false,
                    shouldStopOnRelease := false }
      let uiActs := [Action.buttonState "listening", Action.status "Starting..."]
      let startRes := sys0.sr.start permDenied
      if startRes.2.1 then
        ({ sys0 with sr := startRes.1, app := app2 },
         acts0 ++ uiActs ++ startRes.2.2)
      else
        ({ sys0 with
           sr := startRes.1,
           app := { app2 with
                    recordingRequested := false, pressStartTime := none } },
         acts0 ++ uiActs ++ startRes.2.2 ++
           [Action.status "Failed to start listening", Action.buttonState "idle"])

/-- `handlePressEnd(source)` (app.js second iteration, lines 959-1006).
`source` is only ever logged by the code; it is kept as a parameter to
state input-source uniformity. -/
def Sys.handlePressEnd (sys : Sys) (source : String) (now : Nat) :
    Sys × List Action :=
  let _ := source
  if !sys.app.recordingRequested && !sys.app.isListening then
    ({ sys with app := { sys.app with
         pressStartTime := none, shouldStopOnRelease := false } }, [])
  else if sys.app.shouldStopOnRelease then
    let stopRes := sys.recStop now
    ({ stopRes.1 with app := { stopRes.1.app with
         shouldStopOnRelease := false, pressStartTime := none } }, stopRes.2)
  else
    let holdDuration := match sys.app.pressStartTime with
      | some t => now - t
      | none => 0
    if holdDuration ≥ 300 then
      let sys1 := { sys with app := { sys.app with isHoldMode := true } }
      let stopRes := sys1.recStop now
      ({ stopRes.1 with app := { stopRes.1.app with pressStartTime := none } },
       stopRes.2)
    else
      ({ sys with app := { sys.app with
           isHoldMode := false, pressStartTime := none } }, [])

/-- Completion of `processUserMessage` (app.js second iteration, lines
1012-1047) once the awaited `API.sendMessageToClaude` call settles:
on success the assistant turn is appended to the history, shown, and
spoken unless silent mode is on; on failure the history is untouched and
an error bubble is shown in place of the reply; `finally` always runs
`resetToIdle()`. -/
def AppState.processUserMessageFinish (a : AppState)
    (result : Except String String) : AppState × List Action :=
  match result with
  | .ok reply =>
      let a1 := { a with conversationHistory :=
                    a.conversationHistory ++ [Message.mk "assistant" reply] }
      (a1.resetToIdle,
       [Action.uiMessage "assistant" reply] ++
       (if !a.silentMode then [Action.ttsSpeak reply] else []) ++
       [Action.status "Ready"] ++ resetToIdleActions)
  | .error msg =>
      (a.resetToIdle,
       [Action.status ("Error: " ++ msg),
        Action.uiMessage "assistant"
          ("Sorry, I encountered an error: " ++ msg)] ++ resetToIdleActions)

/-- Arrival of the chat response for the pending `processUserMessage`
call.  The guard reflects that a response can only settle while the
request issued with `isProcessing = true` is pending. -/
def Sys.chatResolved (sys : Sys) (result : Except String String) :
    Sys × List Action :=
  if sys.app.isProcessing then
    let fin := sys.app.processUserMessageFinish result
    ({ sys with app := fin.1 }, fin.2)
  else (sys, [])

/-- The events driving the controller: normalized user intents, device
callbacks, timer expiry and network completion. -/
inductive Event where
  | pressStart (source : String) (now : Nat) (permDenied : Bool)
  | pressEnd (source : String) (now : Nat)
  | devStarted
  | devError (err : String)
  | devEnd
  | watchdogFire (deadline : Nat)
  | chatResolved (result : Except String String)

/-- One step of the whole system. -/
def Sys.step (sys : Sys) : Event → Sys × List Action
  | .pressStart source now permDenied => sys.handlePressStart source now permDenied
  | .pressEnd source now => sys.handlePressEnd source now
  | .devStarted => sys.devStarted
  | .devError err => sys.devError err
  | .devEnd => sys.devEnd
  | .watchdogFire d => sys.watchdogFire d
  | .chatResolved r => sys.chatResolved r

/-- Mutable fields of the first-iteration `appState` (app.js lines 7-16),
which drives the audio-recording pipeline (`onResult` receives an audio
blob and transcription happens server-side). -/
structure AppStateV1 where
  conversationHistory : List Message
  isListening : Bool
  isProcessing : Bool
  recordingRequested : Bool
  silentMode : Bool
  currentLanguage : String
deriving DecidableEq, Repr

/-- `resetToIdle()` (app.js first iteration, lines 511-520). -/
def AppStateV1.resetToIdle (a : AppStateV1) : AppStateV1 :=
  { a with isProcessing := false, isListening := false,
           recordingRequested := false }

/-- Actions of the first-iteration `resetToIdle()`; the ready text depends
on whether the client is a touch device. -/
def resetToIdleV1Actions (isTouch : Bool) : List Action :=
  [.buttonState "idle",
   .status (if isTouch then "Ready - Hold to talk" else "Ready - Click to toggle")]

/-- Synchronous prefix of the first-iteration `onResult` callback
(app.js lines 113-160): an empty audio blob is rejected with a status and
a reset; otherwise the blob is sent for transcription. -/
def AppStateV1.onResultAudio (a : AppStateV1) (blobSize : Nat)
    (isTouch : Bool) : AppStateV1 × List Action :=
  if blobSize = 0 then
    (a.resetToIdle,
     [Action.status "No audio captured. Try again."] ++ resetToIdleV1Actions isTouch)
  else
    (a, [Action.buttonState "processing", Action.status "Transcribing audio...",
         Action.transcribeRequest])

/-- Continuation of the first-iteration `onResult` once the awaited
`API.transcribeAudio` call settles (app.js lines 130-159): the detected
language is stored, an empty or missing transcript is rejected with a
status and a reset, and a usable transcript is appended to the history as
the user turn before `processUserMessage` starts. -/
def AppStateV1.transcribeResolved (a : AppStateV1)
    (result : Except String (String × String)) (isTouch : Bool) :
    AppStateV1 × List Action :=
  match result with
  | .error e =>
      (a.resetToIdle,
       [Action.status ("Transcription error: " ++ e)] ++ resetToIdleV1Actions isTouch)
  | .ok (transcript, language) =>
      let a1 := { a with currentLanguage := language }
      if jsTrim transcript = "" then
        (a1.resetToIdle,
         [Action.status "No speech detected. Try again."] ++
           resetToIdleV1Actions isTouch)
      else
        ({ a1 with
           conversationHistory :=
             a1.conversationHistory ++ [Message.mk "user" transcript],
           isProcessing := true },
         [Action.uiMessage "user" transcript, Action.buttonState "processing",
          Action.status "Processing...", Action.chatRequest transcript])

/-- Completion of the first-iteration `processUserMessage` (app.js lines
391-443) once the awaited chat call settles.  On success the assistant
turn is appended and spoken unless silent mode is on; on failure the
history (including the already-appended user turn) is untouched and an
error bubble is shown in place of the reply; `finally` always runs
`resetToIdle()`. -/
def AppStateV1.processUserMessageFinish (a : AppStateV1)
    (result : Except String String) (isTouch : Bool) : AppStateV1 × List Action :=
  match result with
  | .ok reply =>
      let a1 := { a with conversationHistory :=
                    a.conversationHistory ++ [Message.mk "assistant" reply] }
      (a1.resetToIdle,
       [Action.uiMessage "assistant" reply] ++
       (if !a.silentMode then
          [Action.status "Playing audio...", Action.ttsSpeak reply]
        else []) ++
       [Action.status "Ready"] ++ resetToIdleV1Actions isTouch)
  | .error msg =>
      (a.resetToIdle,
       [Action.status ("Error: " ++ msg),
        Action.uiMessage "assistant"
          ("Sorry, I encountered an error: " ++ msg)] ++
         resetToIdleV1Actions isTouch)

/-- Unlock-related fields of `TextToSpeechWrapper` (textToSpeech.js). -/
structure TtsState where
  /-- `this.iosUnlocked`. -/
  iosUnlocked : Bool
  /-- `this.audioUnlocked`. -/
  audioUnlocked : Bool
deriving DecidableEq, Repr

/-- `unlockIOSAudio()` (textToSpeech.js lines 51-60): guarded by
`iosUnlocked`, plays a silent utterance and sets the flag synchronously. -/
def TtsState.unlockIOSAudio (t : TtsState) : TtsState × List Action :=
  if t.iosUnlocked then (t, [])
  else ({ t with iosUnlocked := true }, [.iosProbe])

/-- `unlockAudioPlayback()` (textToSpeech.js lines 67-130), run atomically
with `playSucceeds` the outcome of the awaited `audio.play()` probe.  If
`audioUnlocked` is already set the call returns at once.  Otherwise the
silent-clip probe is always played; only on success is `audioUnlocked`
set — after the asynchronous play, not before it — followed by the iOS
unlock; on failure the `catch` block falls back to the iOS unlock and the
flag stays clear. -/
def TtsState.unlockAudioPlayback (t : TtsState) (playSucceeds : Bool) :
    TtsState × List Action :=
  if t.audioUnlocked then (t, [])
  else if playSucceeds then
    let t1 := { t with audioUnlocked := true }
    let ios := t1.unlockIOSAudio
    (ios.1, [Action.audioProbe] ++ ios.2)
  else
    let ios := t.unlockIOSAudio
    (ios.1, [Action.audioProbe] ++ ios.2)

/-- A sequence of `unlockAudioPlayback()` calls with the given probe
outcomes, collecting all actions. -/
def TtsState.unlockCalls (t : TtsState) : List Bool → TtsState × List Action
  | [] => (t, [])
  | b :: bs =>
      let fst := t.unlockAudioPlayback b
      let rest := fst.1.unlockCalls bs
      (rest.1, fst.2 ++ rest.2)

/-- Value of a base64 alphabet character; `none` for characters outside
the alphabet, which `Buffer.from(-, base64)` skips (including the `=`
padding once the data characters are consumed). -/
def base64Val (c : Char) : Option Nat :=
  if 'A' ≤ c ∧ c ≤ 'Z' then some (c.toNat - 65)
  else if 'a' ≤ c ∧ c ≤ 'z' then some (c.toNat - 97 + 26)
  else if '0' ≤ c ∧ c ≤ '9' then some (c.toNat - 48 + 52)
  else if c = '+' then some 62
  else if c = '/' then some 63
  else none

/-- Pack a stream of 6-bit values into bytes, dropping trailing bits that
do not fill a byte, as the base64 decoder does. -/
def packBits : List Nat → Nat → Nat → List Nat
  | [], _, _ => []
  | v :: vs, acc, nbits =>
      let acc2 := acc * 64 + v
      let nbits2 := nbits + 6
      if 8 ≤ nbits2 then
        (acc2 / 2 ^ (nbits2 - 8)) :: packBits vs (acc2 % 2 ^ (nbits2 - 8)) (nbits2 - 8)
      else
        packBits vs acc2 nbits2

/-- `Buffer.from(s, base64).toString()`: lenient base64 decoding followed
by UTF-8 decoding.  Bytes are turned into characters one-for-one, which
agrees with UTF-8 on the ASCII credentials handled here. -/
def base64Decode (s : String) : String :=
  String.mk ((packBits (s.data.filterMap base64Val) 0 0).map Char.ofNat)

/-- Split a character list at every occurrence of `sep`, keeping empty
segments, as JavaScript `split` does for a one-character separator. -/
def splitCharAux (sep : Char) : List Char → List Char → List String
  | [], acc => [String.mk acc.reverse]
  | c :: cs, acc =>
      if c = sep then String.mk acc.reverse :: splitCharAux sep cs []
      else splitCharAux sep cs (c :: acc)

/-- JavaScript `String.prototype.split` with a one-character separator,
on the character list (kernel-computable; `String.splitOn` is defined by
well-founded recursion on byte positions and does not reduce). -/
def jsSplitChar (sep : Char) (s : String) : List String :=
  splitCharAux sep s.data []

/-- What the `basicAuth` middleware does with a request. -/
inductive AuthOutcome where
  /-- `next()` was called: the request is admitted. -/
  | next
  /-- `requestAuth(res)`: a 401 with a `WWW-Authenticate` challenge. -/
  | challenge
  /-- the middleware threw: `Buffer.from` received `undefined` because the
  `Authorization` header has no space-separated second field. -/
  | thrown
deriving DecidableEq, Repr

/-- JavaScript truthiness of an environment variable: `undefined` and the
empty string are falsy. -/
def jsTruthy : Option String → Bool
  | none => false
  | some s => s ≠ ""

/-- The `basicAuth` middleware (middleware/auth.js lines 5-45), on the
`AUTH_USERNAME`/`AUTH_PASSWORD` environment variables and the request's
`Authorization` header.  `split` always yields at least one element, so
`auth[0]` is a string, while `auth[1]` is `undefined` when the decoded
credentials contain no colon, and `undefined === password` is false. -/
def basicAuth (authUsername authPassword : Option String)
    (authHeader : Option String) : AuthOutcome :=
  if !(jsTruthy authUsername) || !(jsTruthy authPassword) then .next
  else
    match authHeader with
    | none => .challenge
    | some h =>
        match (jsSplitChar ' ' h)[1]? with
        | none => .thrown
        | some b64 =>
            let auth := jsSplitChar ':' (base64Decode b64)
            if auth[0]? = authUsername ∧ auth[1]? = authPassword then .next
            else .challenge

/-- Modelled from the claim wording for C10: the username of a decoded
Basic credential string is everything before the first colon. -/
def specUsername (decoded : String) : String :=
  String.mk (decoded.data.takeWhile (· ≠ ':'))

/-- Modelled from the claim wording for C10: the password of a decoded
Basic credential string is everything after the first colon. -/
def specPassword (decoded : String) : String :=
  String.mk ((decoded.data.dropWhile (· ≠ ':')).drop 1)

/-- A fresh system: supported wrapper, idle app, nothing unlocked, no
armed timer. -/
def idleSys : Sys :=
  { sr := { supported := true, isRecording := false, isStarting := false,
            pendingStop := false, collectedTranscript := "" },
    app := { conversationHistory := [], isListening := false,
             isProcessing := false, spaceKeyPressed := false,
             recordingRequested := false, pressStartTime := none,
             isHoldMode := false, shouldStopOnRelease := false,
             silentMode := false },
    ttsIosUnlocked := false, watchdogs := [] }

/-- The system after an accepted press at t = 0 followed by the device's
started callback: a listening session. -/
def listenSys : Sys := ((idleSys.handlePressStart "button" 0 false).1.devStarted).1

/-- The system after a toggle first tap: press at 0, started, released at
t = 100 (below the 300 ms hold threshold), so the session keeps running. -/
def tapSys : Sys := (listenSys.handlePressEnd "button" 100).1

/-- Whether an event is a `pressEnd` — the only event whose handler calls
the watchdog-arming `stop()`. -/
def Event.isPressEnd : Event → Bool
  | .pressEnd _ _ => true
  | _ => false

/-- Number of `audio.play()` probe executions a sequence of
`unlockAudioPlayback()` calls with the given outcomes performs when the
flag starts clear: every call up to and including the first successful
one runs the probe. -/
def probesNeeded : List Bool → Nat
  | [] => 0
  | true :: _ => 1
  | false :: bs => 1 + probesNeeded bs

/-- The system right after an accepted press at t = 0, before the device
has confirmed the start. -/
def startingSys : Sys := (idleSys.handlePressStart "button" 0 false).1

/-- The tap session after a second press at t = 400 marked it to stop on
release. -/
def markedSys : Sys := (tapSys.handlePressStart "button" 400 false).1

/-- The listening session after a hold release at t = 400 (≥ 300 ms):
`recognition.stop()` has been issued and the watchdog armed for t = 900. -/
def holdStopSys : Sys := (listenSys.handlePressEnd "button" 400).1

/-- After the hold stop, the device ends (terminal transition), and a new
session is pressed at t = 450 and confirmed — while the previous
session's watchdog deadline 900 is still armed. -/
def staleNextSys : Sys :=
  ((((holdStopSys.devEnd).1).handlePressStart "button" 450 false).1.devStarted).1

/-! Helper lemmas characterizing the actions each handler can emit. -/

/-- `stop()` either does nothing visible or calls `recognition.stop()`. -/
theorem recStop_acts (sys : Sys) (now : Nat) :
    (sys.recStop now).2 = [] ∨ (sys.recStop now).2 = [Action.recStop] := by
  unfold Sys.recStop
  repeat' split
  all_goals simp

/-- `handlePressEnd` either does nothing device-visible or issues one
`recognition.stop()`. -/
theorem pressEnd_acts (sys : Sys) (src : String) (now : Nat) :
    (sys.handlePressEnd src now).2 = [] ∨
    (sys.handlePressEnd src now).2 = [Action.recStop] := by
  cases hrr : sys.app.recordingRequested <;>
  cases hl : sys.app.isListening <;>
  cases hssr : sys.app.shouldStopOnRelease <;>
  cases hsup : sys.sr.supported <;>
  cases hst : sys.sr.isStarting <;>
  cases hrec : sys.sr.isRecording <;>
  simp [Sys.handlePressEnd, Sys.recStop, hrr, hl, hssr, hsup, hst, hrec] <;>
  split <;> simp

/-- `handlePressStart` never calls `recognition.start()` while the wrapper
has a capture open. -/
theorem pressStart_no_recStart_of_open (sys : Sys) (src : String) (now : Nat)
    (p : Bool) (h : sys.sr.isRecording = true ∨ sys.sr.isStarting = true) :
    Action.recStart ∉ (sys.handlePressStart src now p).2 := by
  rcases h with h | h <;>
  cases htts : sys.ttsIosUnlocked <;>
  cases hproc : sys.app.isProcessing <;>
  cases hrr : sys.app.recordingRequested <;>
  cases hl : sys.app.isListening <;>
  cases hsup : sys.sr.supported <;>
  simp [Sys.handlePressStart, RecState.start, htts, hproc, hrr, hl, hsup, h]

/-- The started callback either honors a pending stop or surfaces the
listening state. -/
theorem devStarted_acts (sys : Sys) :
    (sys.devStarted).2 = [Action.recStop] ∨
    (sys.devStarted).2 =
      [Action.buttonState "listening", Action.status "Listening..."] := by
  cases hps : sys.sr.pendingStop <;> simp [Sys.devStarted, hps]

/-- The error callback emits a classified status and the reset actions. -/
theorem devError_acts (sys : Sys) (err : String) :
    ∃ m, (sys.devError err).2 = [Action.status m] ++ resetToIdleActions :=
  ⟨_, rfl⟩

/-- The end callback never calls `recognition.start()`. -/
theorem devEnd_no_recStart (sys : Sys) :
    Action.recStart ∉ (sys.devEnd).2 := by
  by_cases hft : jsTrim sys.sr.collectedTranscript = ""
  · simp [Sys.devEnd, hft]
  · by_cases hft2 : jsTrim (jsTrim sys.sr.collectedTranscript) = "" <;>
      simp [Sys.devEnd, hft, hft2, resetToIdleActions]

/-- The watchdog body either is a no-op or aborts the device. -/
theorem watchdogFire_acts (sys : Sys) (d : Nat) :
    (sys.watchdogFire d).2 = [] ∨ (sys.watchdogFire d).2 = [Action.recAbort] := by
  by_cases hd : d ∈ sys.watchdogs <;>
  cases hrec : sys.sr.isRecording <;>
  cases hst : sys.sr.isStarting <;>
  simp [Sys.watchdogFire, hd, hrec, hst]

/-- Chat-response completion never calls `recognition.start()`. -/
theorem chatResolved_no_recStart (sys : Sys) (r : Except String String) :
    Action.recStart ∉ (sys.chatResolved r).2 := by
  cases hproc : sys.app.isProcessing <;> cases r <;>
  cases hsil : sys.app.silentMode <;>
  simp [Sys.chatResolved, AppState.processUserMessageFinish, hproc, hsil,
        resetToIdleActions]

/-- C1: at most one capture session is ever concurrently open.
`SpeechRecognitionWrapper.start()` invoked while `isRecording` or
`isStarting` is set returns false without side effects; `handlePressStart`
never issues a start while `recordingRequested` or `isListening` is set
(it leaves the wrapper untouched and emits no `recognition.start()`); and
across every event of the system, `recognition.start()` is only ever
called from states in which no capture lifecycle is open. -/
theorem capture_device_single_session :
    (∀ (s : RecState) (p : Bool), s.isRecording = true ∨ s.isStarting = true →
        s.start p = (s, false, []))
  ∧ (∀ (sys : Sys) (src : String) (now : Nat) (p : Bool),
        sys.app.recordingRequested = true ∨ sys.app.isListening = true →
        (sys.handlePressStart src now p).1.sr = sys.sr ∧
        Action.recStart ∉ (sys.handlePressStart src now p).2)
  ∧ (∀ (sys : Sys) (e : Event),
        Action.recStart ∈ (sys.step e).2 →
        sys.sr.isRecording = false ∧ sys.sr.isStarting = false) := by
  refine ⟨?_, ?_, ?_⟩
  · intro s p h
    cases hs : s.supported <;> rcases h with h | h <;>
      simp [RecState.start, hs, h]
  · intro sys src now p h
    cases htts : sys.ttsIosUnlocked <;>
      cases hproc : sys.app.isProcessing <;>
      rcases h with h | h <;>
      simp [Sys.handlePressStart, htts, hproc, h]
  · intro sys e hmem
    cases e with
    | pressStart src now p =>
        simp only [Sys.step] at hmem
        cases hrec : sys.sr.isRecording
        · cases hst : sys.sr.isStarting
          · exact ⟨rfl, rfl⟩
          · exact absurd hmem (pressStart_no_recStart_of_open _ _ _ _ (Or.inr hst))
        · exact absurd hmem (pressStart_no_recStart_of_open _ _ _ _ (Or.inl hrec))
    | pressEnd src now =>
        simp only [Sys.step] at hmem
        rcases pressEnd_acts sys src now with h | h <;> simp [h] at hmem
    | devStarted =>
        simp only [Sys.step] at hmem
        rcases devStarted_acts sys with h | h <;> simp [h] at hmem
    | devError err =>
        simp only [Sys.step] at hmem
        obtain ⟨m, hm⟩ := devError_acts sys err
        simp [hm, resetToIdleActions] at hmem
    | devEnd =>
        simp only [Sys.step] at hmem
        exact absurd hmem (devEnd_no_recStart sys)
    | watchdogFire d =>
        simp only [Sys.step] at hmem
        rcases watchdogFire_acts sys d with h | h <;> simp [h] at hmem
    | chatResolved r =>
        simp only [Sys.step] at hmem
        exact absurd hmem (chatResolved_no_recStart sys r)

/-- C1 witness: at the concrete listening session, `start()` refuses to
run and a second press issues no device start. -/
theorem capture_device_single_session_witness :
    listenSys.sr.start false = (listenSys.sr, false, []) ∧
    Action.recStart ∉ (listenSys.handlePressStart "button" 200 false).2 :=
  ⟨capture_device_single_session.1 listenSys.sr false (Or.inl (by decide)),
   (capture_device_single_session.2.1 listenSys "button" 200 false
      (Or.inr (by decide))).2⟩

/-- C2: a stop requested while the controller is Starting (start called,
started callback not yet fired) never reaches the device: `stop()` only
latches `pendingStop` and performs no device call; when the started
callback then fires with a pending stop, `recognition.stop()` is issued at
once and the app-level `onStart` (the user-visible Listening state) is
never invoked. -/
theorem pending_stop_latched :
    (∀ (sys : Sys) (now : Nat),
        sys.sr.supported = true → sys.sr.isStarting = true →
        sys.recStop now =
          ({ sys with sr := { sys.sr with pendingStop := true } }, []))
  ∧ (∀ sys : Sys, sys.sr.pendingStop = true →
        (sys.devStarted).2 = [Action.recStop] ∧
        (sys.devStarted).1.app = sys.app ∧
        Action.status "Listening..." ∉ (sys.devStarted).2) := by
  constructor
  · intro sys now hsup hst
    simp [Sys.recStop, hsup, hst]
  · intro sys hps
    simp [Sys.devStarted, hps]

/-- C2 witness: on the concrete starting session, a stop at t = 50 only
latches, and the started callback then stops immediately. -/
theorem pending_stop_latched_witness :
    startingSys.recStop 50 =
      ({ startingSys with sr := { startingSys.sr with pendingStop := true } }, []) ∧
    ((startingSys.recStop 50).1.devStarted).2 = [Action.recStop] :=
  ⟨pending_stop_latched.1 startingSys 50 (by decide) (by decide),
   (pending_stop_latched.2 (startingSys.recStop 50).1 (by decide)).1⟩

/-! Helper lemmas: which events touch the armed watchdog deadlines. -/

/-- `handlePressStart` never arms or clears a watchdog timer. -/
theorem pressStart_watchdogs (sys : Sys) (src : String) (now : Nat) (p : Bool) :
    (sys.handlePressStart src now p).1.watchdogs = sys.watchdogs := by
  cases htts : sys.ttsIosUnlocked <;>
  cases hproc : sys.app.isProcessing <;>
  simp [Sys.handlePressStart, RecState.start, htts, hproc] <;>
  (repeat' split) <;> (try simp)

/-- The started callback never touches the watchdog timers. -/
theorem devStarted_watchdogs (sys : Sys) :
    (sys.devStarted).1.watchdogs = sys.watchdogs := by
  cases hps : sys.sr.pendingStop <;> simp [Sys.devStarted, hps]

/-- The error callback never touches the watchdog timers: the code holds
no handle to the `setTimeout` and never calls `clearTimeout`. -/
theorem devError_watchdogs (sys : Sys) (err : String) :
    (sys.devError err).1.watchdogs = sys.watchdogs := rfl

/-- The end callback never touches the watchdog timers. -/
theorem devEnd_watchdogs (sys : Sys) :
    (sys.devEnd).1.watchdogs = sys.watchdogs := by
  by_cases hft : jsTrim sys.sr.collectedTranscript = ""
  · simp [Sys.devEnd, hft]
  · by_cases hft2 : jsTrim (jsTrim sys.sr.collectedTranscript) = "" <;>
      simp [Sys.devEnd, hft, hft2]

/-- Chat-response completion never touches the watchdog timers. -/
theorem chatResolved_watchdogs (sys : Sys) (r : Except String String) :
    (sys.chatResolved r).1.watchdogs = sys.watchdogs := by
  cases hproc : sys.app.isProcessing <;> cases r <;>
  simp [Sys.chatResolved, AppState.processUserMessageFinish, hproc]

/-- C3: (a) a `stop()` on a recording session arms the watchdog for
`now + 500`, and once armed, firing it on a session the device never
terminated force-resets `isRecording`/`isStarting`/`pendingStop` and
aborts the device; (b) only a `pressEnd` event can arm the watchdog —
every other event leaves the armed deadlines unchanged (or merely
consumes a fired one) — and with no armed deadline a timer expiry is a
strict no-op, so a toggle-mode session with no further press never
auto-closes on timeout alone. -/
theorem watchdog_bounded_termination :
    (∀ (sys : Sys) (now : Nat),
        sys.sr.supported = true → sys.sr.isStarting = false →
        sys.sr.isRecording = true →
        (sys.recStop now).1.watchdogs = sys.watchdogs ++ [now + 500] ∧
        (sys.recStop now).2 = [Action.recStop])
  ∧ (∀ (sys : Sys) (d : Nat), d ∈ sys.watchdogs →
        sys.sr.isRecording = true ∨ sys.sr.isStarting = true →
        (sys.watchdogFire d).1.sr.isRecording = false ∧
        (sys.watchdogFire d).1.sr.isStarting = false ∧
        (sys.watchdogFire d).1.sr.pendingStop = false ∧
        (sys.watchdogFire d).2 = [Action.recAbort])
  ∧ (∀ (sys : Sys) (e : Event), e.isPressEnd = false →
        (sys.step e).1.watchdogs = sys.watchdogs ∨
        ∃ d, (sys.step e).1.watchdogs = sys.watchdogs.erase d)
  ∧ (∀ (sys : Sys) (d : Nat), sys.watchdogs = [] →
        sys.watchdogFire d = (sys, [])) := by
  refine ⟨?_, ?_, ?_, ?_⟩
  · intro sys now hsup hst hrec
    simp [Sys.recStop, hsup, hst, hrec]
  · intro sys d hd hopen
    rcases hopen with h | h <;> simp [Sys.watchdogFire, hd, h]
  · intro sys e hpe
    cases e with
    | pressStart src now p => exact Or.inl (pressStart_watchdogs sys src now p)
    | pressEnd src now => simp [Event.isPressEnd] at hpe
    | devStarted => exact Or.inl (devStarted_watchdogs sys)
    | devError err => exact Or.inl (devError_watchdogs sys err)
    | devEnd => exact Or.inl (devEnd_watchdogs sys)
    | watchdogFire d =>
        by_cases hd : d ∈ sys.watchdogs
        · right
          refine ⟨d, ?_⟩
          cases hrec : sys.sr.isRecording <;>
          cases hst : sys.sr.isStarting <;>
          simp [Sys.step, Sys.watchdogFire, hd, hrec, hst]
        · left
          simp [Sys.step, Sys.watchdogFire, hd]
    | chatResolved r => exact Or.inl (chatResolved_watchdogs sys r)
  · intro sys d h
    simp [Sys.watchdogFire, h]

/-- C3 witness: stopping the concrete listening session at t = 400 arms
deadline 900; firing it on the never-terminated session aborts the
device; firing an unarmed timer on the idle system does nothing. -/
theorem watchdog_bounded_termination_witness :
    (listenSys.recStop 400).1.watchdogs = [900] ∧
    (holdStopSys.watchdogFire 900).1.sr.isRecording = false ∧
    (holdStopSys.watchdogFire 900).2 = [Action.recAbort] ∧
    idleSys.watchdogFire 123 = (idleSys, []) := by
  refine ⟨?_, ?_, ?_, ?_⟩
  · have h := (watchdog_bounded_termination.1 listenSys 400 (by decide) (by decide)
      (by decide)).1
    simpa using h
  · exact (watchdog_bounded_termination.2.1 holdStopSys 900 (by decide)
      (Or.inl (by decide))).1
  · exact (watchdog_bounded_termination.2.1 holdStopSys 900 (by decide)
      (Or.inl (by decide))).2.2.2
  · exact watchdog_bounded_termination.2.2.2 idleSys 123 (by decide)

/-- C4: the hold-vs-toggle boundary of `handlePressEnd`.  The handler is
literally independent of the input source.  On an active session not yet
marked to stop, with `holdDuration = now - pressStartTime`: at 300 ms or
more the session is stopped immediately (`recognition.stop()` issued,
hold mode recorded); below 300 ms — including exactly 299 ms — nothing is
stopped and the session remains open.  The boundary is inclusive on the
hold side. -/
theorem hold_toggle_boundary :
    (∀ (sys : Sys) (src1 src2 : String) (now : Nat),
        sys.handlePressEnd src1 now = sys.handlePressEnd src2 now)
  ∧ (∀ (sys : Sys) (src : String) (t0 now : Nat),
        sys.app.recordingRequested = true →
        sys.app.shouldStopOnRelease = false →
        sys.app.pressStartTime = some t0 →
        sys.sr.supported = true → sys.sr.isStarting = false →
        sys.sr.isRecording = true →
        (300 ≤ now - t0 →
           (sys.handlePressEnd src now).2 = [Action.recStop] ∧
           (sys.handlePressEnd src now).1.app.isHoldMode = true) ∧
        (now - t0 < 300 →
           (sys.handlePressEnd src now).2 = [] ∧
           (sys.handlePressEnd src now).1.sr = sys.sr ∧
           (sys.handlePressEnd src now).1.app.recordingRequested = true ∧
           (sys.handlePressEnd src now).1.app.isListening = sys.app.isListening)) := by
  constructor
  · intro sys src1 src2 now
    rfl
  · intro sys src t0 now hrr hssr hpt hsup hst hrec
    constructor
    · intro hge
      simp [Sys.handlePressEnd, Sys.recStop, hrr, hssr, hpt, hsup, hst, hrec, hge]
    · intro hlt
      simp [Sys.handlePressEnd, Sys.recStop, hrr, hssr, hpt, hsup, hst, hrec,
            Nat.not_le.mpr hlt]

/-- C4 witness: on the concrete listening session started at t = 0, a
release at 300 ms stops (hold), at 299 ms keeps the session open
(toggle first tap), and button and key releases behave identically. -/
theorem hold_toggle_boundary_witness :
    ((listenSys.handlePressEnd "button" 300).2 = [Action.recStop] ∧
     (listenSys.handlePressEnd "button" 300).1.app.isHoldMode = true) ∧
    ((listenSys.handlePressEnd "space" 299).2 = [] ∧
     (listenSys.handlePressEnd "space" 299).1.app.recordingRequested = true) ∧
    listenSys.handlePressEnd "button" 299 = listenSys.handlePressEnd "space" 299 := by
  refine ⟨?_, ?_, ?_⟩
  · exact (hold_toggle_boundary.2 listenSys "button" 0 300 (by decide) (by decide)
      (by decide) (by decide) (by decide) (by decide)).1 (by decide)
  · have h := (hold_toggle_boundary.2 listenSys "space" 0 299 (by decide) (by decide)
      (by decide) (by decide) (by decide) (by decide)).2 (by decide)
    exact ⟨h.1, h.2.2.1⟩
  · exact hold_toggle_boundary.1 listenSys "button" "space" 299

/-- C5 counterexample: after a toggle first tap (the concrete `tapSys`,
recording with `shouldStopOnRelease` clear), the next accepted
`pressStart` does NOT stop the session, contrary to the claim that it is
"honored without requiring a matching pressEnd/release": it emits no
`recognition.stop()` or abort, the wrapper is still recording afterwards,
and the press merely sets the `shouldStopOnRelease` mark. -/
theorem toggle_second_press_counterexample :
    tapSys.sr.isRecording = true ∧
    tapSys.app.shouldStopOnRelease = false ∧
    (tapSys.handlePressStart "space" 5000 false).1.sr.isRecording = true ∧
    Action.recStop ∉ (tapSys.handlePressStart "space" 5000 false).2 ∧
    Action.recAbort ∉ (tapSys.handlePressStart "space" 5000 false).2 ∧
    (tapSys.handlePressStart "space" 5000 false).1.app.shouldStopOnRelease = true := by
  decide

/-- C5 amended: after a toggle first tap leaves a session running, the
next accepted `pressStart` (from any source) marks the session to stop by
setting `shouldStopOnRelease` — without itself issuing any device stop —
and the stop is issued on that second press's matching `pressEnd`
(release), whatever its hold duration. -/
theorem toggle_off_marked_then_stopped_on_release :
    ∀ (sys : Sys) (src src2 : String) (now now2 : Nat) (p : Bool),
      sys.app.isProcessing = false →
      sys.app.recordingRequested = true ∨ sys.app.isListening = true →
      sys.sr.supported = true → sys.sr.isStarting = false →
      sys.sr.isRecording = true →
      (sys.handlePressStart src now p).1.app.shouldStopOnRelease = true ∧
      Action.recStop ∉ (sys.handlePressStart src now p).2 ∧
      (sys.handlePressStart src now p).1.sr = sys.sr ∧
      ((sys.handlePressStart src now p).1.handlePressEnd src2 now2).2 =
        [Action.recStop] ∧
      ((sys.handlePressStart src now p).1.handlePressEnd src2 now2).1.app.shouldStopOnRelease = false := by
  intro sys src src2 now now2 p hproc hdisj hsup hst hrec
  cases htts : sys.ttsIosUnlocked <;>
  cases hrr : sys.app.recordingRequested <;>
  cases hl : sys.app.isListening <;>
  simp_all [Sys.handlePressStart, Sys.handlePressEnd, Sys.recStop]

/-- C5 amended witness: on the concrete tap session, the second press at
t = 5000 marks the stop and its release at t = 5080 (an 80 ms tap) issues
it. -/
theorem toggle_off_marked_then_stopped_on_release_witness :
    (tapSys.handlePressStart "space" 5000 false).1.app.shouldStopOnRelease = true ∧
    (((tapSys.handlePressStart "space" 5000 false).1).handlePressEnd "space" 5080).2 =
      [Action.recStop] := by
  have h := toggle_off_marked_then_stopped_on_release tapSys "space" "space" 5000 5080
    false (by decide) (Or.inl (by decide)) (by decide) (by decide) (by decide)
  exact ⟨h.1, h.2.2.2.1⟩

/-- C6 counterexample: not every terminal transition clears every
transient flag, and the watchdog timer handle is never cleared.  On the
concrete marked session, the device end callback leaves the toggle-off
mark `shouldStopOnRelease` set; on the concrete hold-stopped session, the
armed watchdog deadline 900 survives the terminal device-end transition,
and the stale timer then aborts the NEXT session (`staleNextSys`), so a
flag-or-timer of one session does affect the next. -/
theorem terminal_flag_clearing_counterexample :
    markedSys.app.shouldStopOnRelease = true ∧
    markedSys.sr.isRecording = true ∧
    (markedSys.devEnd).1.app.shouldStopOnRelease = true ∧
    holdStopSys.watchdogs = [900] ∧
    (holdStopSys.devEnd).1.watchdogs = [900] ∧
    staleNextSys.sr.isRecording = true ∧
    (staleNextSys.watchdogFire 900).2 = [Action.recAbort] ∧
    (staleNextSys.watchdogFire 900).1.sr.isRecording = false := by
  decide

/-- C6 amended: the device error callback and the controller reset clear
the Starting latch, the pending-stop latch and the toggle-off mark; the
plain device end callback clears the wrapper latches and the app's
recording flags but leaves `shouldStopOnRelease` unchanged (the next
accepted fresh start resets it instead); the watchdog force-termination
clears the wrapper latches; and no terminal transition cancels an armed
watchdog timer — the deadlines survive both error and end. -/
theorem terminal_transitions_flag_clearing :
    (∀ (sys : Sys) (err : String),
        (sys.devError err).1.sr.isStarting = false ∧
        (sys.devError err).1.sr.pendingStop = false ∧
        (sys.devError err).1.sr.isRecording = false ∧
        (sys.devError err).1.app.shouldStopOnRelease = false ∧
        (sys.devError err).1.watchdogs = sys.watchdogs)
  ∧ (∀ sys : Sys, jsTrim sys.sr.collectedTranscript = "" →
        (sys.devEnd).1.sr.isStarting = false ∧
        (sys.devEnd).1.sr.pendingStop = false ∧
        (sys.devEnd).1.sr.isRecording = false ∧
        (sys.devEnd).1.app.recordingRequested = false ∧
        (sys.devEnd).1.app.isListening = false ∧
        (sys.devEnd).1.app.shouldStopOnRelease = sys.app.shouldStopOnRelease ∧
        (sys.devEnd).1.watchdogs = sys.watchdogs)
  ∧ (∀ (sys : Sys) (d : Nat), d ∈ sys.watchdogs →
        sys.sr.isRecording = true ∨ sys.sr.isStarting = true →
        (sys.watchdogFire d).1.sr.isRecording = false ∧
        (sys.watchdogFire d).1.sr.isStarting = false ∧
        (sys.watchdogFire d).1.sr.pendingStop = false)
  ∧ (∀ a : AppState,
        a.resetToIdle.shouldStopOnRelease = false ∧
        a.resetToIdle.isHoldMode = false ∧
        a.resetToIdle.pressStartTime = none)
  ∧ (∀ (sys : Sys) (src : String) (now : Nat) (p : Bool),
        sys.app.isProcessing = false → sys.app.recordingRequested = false →
        sys.app.isListening = false →
        (sys.handlePressStart src now p).1.app.shouldStopOnRelease = false) := by
  refine ⟨?_, ?_, ?_, ?_, ?_⟩
  · intro sys err
    simp [Sys.devError, AppState.resetToIdle]
  · intro sys hft
    simp [Sys.devEnd, hft]
  · intro sys d hd hopen
    rcases hopen with h | h <;> simp [Sys.watchdogFire, hd, h]
  · intro a
    simp [AppState.resetToIdle]
  · intro sys src now p hproc hrr hl
    cases htts : sys.ttsIosUnlocked <;>
    simp_all [Sys.handlePressStart, RecState.start] <;>
    (repeat' split) <;> (try simp)

/-- C6 amended witness: on the concrete hold-stopped session, an error
clears the mark but keeps deadline 900 armed; a plain end clears the
wrapper flags and also keeps the deadline; and a fresh accepted press
starts with the mark clear. -/
theorem terminal_transitions_flag_clearing_witness :
    ((holdStopSys.devError "no-speech").1.app.shouldStopOnRelease = false ∧
     (holdStopSys.devError "no-speech").1.watchdogs = [900]) ∧
    ((holdStopSys.devEnd).1.sr.isRecording = false ∧
     (holdStopSys.devEnd).1.watchdogs = [900]) ∧
    (idleSys.handlePressStart "button" 0 false).1.app.shouldStopOnRelease = false := by
  refine ⟨?_, ?_, ?_⟩
  · have h := terminal_transitions_flag_clearing.1 holdStopSys "no-speech"
    exact ⟨h.2.2.2.1, by simpa using h.2.2.2.2⟩
  · have h := terminal_transitions_flag_clearing.2.1 holdStopSys (by decide)
    exact ⟨h.2.2.1, by simpa using h.2.2.2.2.2.2⟩
  · exact terminal_transitions_flag_clearing.2.2.2.2 idleSys "button" 0 false
      (by decide) (by decide) (by decide)

/-- C7 counterexample: when the wrapper session itself ends with no
collected transcript (the concrete listening session ended by the
device), the terminal transition emits NO action at all — in particular
no EmptyCapture-style status is shown, contrary to the claim; the
history is unchanged and the recording flags do return to idle. -/
theorem empty_capture_counterexample :
    listenSys.sr.isRecording = true ∧
    listenSys.sr.collectedTranscript = "" ∧
    (listenSys.devEnd).2 = [] ∧
    (listenSys.devEnd).1.app.conversationHistory = [] ∧
    (listenSys.devEnd).1.app.isListening = false ∧
    (listenSys.devEnd).1.app.recordingRequested = false := by
  decide

/-- C7 amended: every empty capture leaves the conversation history
unchanged, runs no pipeline turn, and returns the controller flags to
idle; an EmptyCapture status is shown only on the app-level validation
paths — an empty audio blob, or an empty transcript returned by
transcription — while a wrapper session ending with no collected
transcript invokes no `onResult` and shows no status at all. -/
theorem empty_capture_soft_failure :
    (∀ sys : Sys, jsTrim sys.sr.collectedTranscript = "" →
        (sys.devEnd).2 = [] ∧
        (sys.devEnd).1.app.conversationHistory = sys.app.conversationHistory ∧
        (sys.devEnd).1.app.isListening = false ∧
        (sys.devEnd).1.app.recordingRequested = false ∧
        (sys.devEnd).1.sr.isRecording = false ∧
        (sys.devEnd).1.sr.isStarting = false)
  ∧ (∀ (a : AppStateV1) (isTouch : Bool),
        a.onResultAudio 0 isTouch =
          (a.resetToIdle,
           [Action.status "No audio captured. Try again."] ++
             resetToIdleV1Actions isTouch))
  ∧ (∀ (a : AppStateV1) (t lang : String) (isTouch : Bool), jsTrim t = "" →
        a.transcribeResolved (Except.ok (t, lang)) isTouch =
          (({ a with currentLanguage := lang }).resetToIdle,
           [Action.status "No speech detected. Try again."] ++
             resetToIdleV1Actions isTouch)) := by
  refine ⟨?_, ?_, ?_⟩
  · intro sys hft
    simp [Sys.devEnd, hft]
  · intro a isTouch
    simp [AppStateV1.onResultAudio]
  · intro a t lang isTouch ht
    simp [AppStateV1.transcribeResolved, ht]

/-- C7 amended witness: concrete empty captures — wrapper end with no
transcript, a zero-byte blob, and a whitespace-only transcript — leave
the history empty and reset the app. -/
theorem empty_capture_soft_failure_witness :
    ((listenSys.devEnd).2 = [] ∧
     (listenSys.devEnd).1.app.conversationHistory = []) ∧
    (AppStateV1.mk [] true false true false "en").onResultAudio 0 true =
      ((AppStateV1.mk [] true false true false "en").resetToIdle,
       [Action.status "No audio captured. Try again."] ++
         resetToIdleV1Actions true) ∧
    ((AppStateV1.mk [] false true false false "en").transcribeResolved
        (Except.ok ("  ", "es")) false).1.conversationHistory = [] := by
  refine ⟨?_, ?_, ?_⟩
  · have h := empty_capture_soft_failure.1 listenSys (by decide)
    exact ⟨h.1, by simpa using h.2.1⟩
  · exact empty_capture_soft_failure.2.1 (AppStateV1.mk [] true false true false "en") true
  · have h := empty_capture_soft_failure.2.2 (AppStateV1.mk [] false true false false "en")
      "  " "es" false (by decide)
    simp [h, AppStateV1.resetToIdle]

/-- C8: downstream-failure containment in the conversation pipeline.  A
usable transcript appends the user turn to the history before the chat
call is issued; if the chat step fails, the history — including that user
turn — is untouched (never rolled back), a visible error turn is shown in
place of the assistant reply, and the controller returns to idle; the
assistant turn is appended to the history only on success. -/
theorem downstream_failure_containment :
    (∀ (a : AppStateV1) (t lang : String) (isTouch : Bool), jsTrim t ≠ "" →
        (a.transcribeResolved (Except.ok (t, lang)) isTouch).1.conversationHistory =
          a.conversationHistory ++ [Message.mk "user" t] ∧
        Action.chatRequest t ∈ (a.transcribeResolved (Except.ok (t, lang)) isTouch).2)
  ∧ (∀ (a : AppStateV1) (msg : String) (isTouch : Bool),
        (a.processUserMessageFinish (Except.error msg) isTouch).1.conversationHistory =
          a.conversationHistory ∧
        Action.uiMessage "assistant" ("Sorry, I encountered an error: " ++ msg) ∈
          (a.processUserMessageFinish (Except.error msg) isTouch).2 ∧
        (a.processUserMessageFinish (Except.error msg) isTouch).1.isProcessing = false ∧
        (a.processUserMessageFinish (Except.error msg) isTouch).1.isListening = false ∧
        (a.processUserMessageFinish (Except.error msg) isTouch).1.recordingRequested = false)
  ∧ (∀ (a : AppStateV1) (reply : String) (isTouch : Bool),
        (a.processUserMessageFinish (Except.ok reply) isTouch).1.conversationHistory =
          a.conversationHistory ++ [Message.mk "assistant" reply] ∧
        (a.processUserMessageFinish (Except.ok reply) isTouch).1.isProcessing = false) := by
  refine ⟨?_, ?_, ?_⟩
  · intro a t lang isTouch ht
    simp [AppStateV1.transcribeResolved, ht]
  · intro a msg isTouch
    simp [AppStateV1.processUserMessageFinish, AppStateV1.resetToIdle]
  · intro a reply isTouch
    simp [AppStateV1.processUserMessageFinish, AppStateV1.resetToIdle]

/-- C8 witness: a concrete turn — transcribing "hello" appends the user
turn; a failing chat call keeps it and appends nothing; a successful one
appends the assistant reply. -/
theorem downstream_failure_containment_witness :
    (((AppStateV1.mk [] false false false false "en").transcribeResolved
        (Except.ok ("hello", "en")) false).1.conversationHistory =
       [Message.mk "user" "hello"]) ∧
    (((AppStateV1.mk [Message.mk "user" "hello"] false true false false "en").processUserMessageFinish
        (Except.error "Network error") false).1.conversationHistory =
       [Message.mk "user" "hello"]) ∧
    (((AppStateV1.mk [Message.mk "user" "hello"] false true false false "en").processUserMessageFinish
        (Except.ok "Hi there") false).1.conversationHistory =
       [Message.mk "user" "hello", Message.mk "assistant" "Hi there"]) := by
  refine ⟨?_, ?_, ?_⟩
  · have h := (downstream_failure_containment.1 (AppStateV1.mk [] false false false false "en")
      "hello" "en" false (by decide)).1
    simpa using h
  · have h := (downstream_failure_containment.2.1
      (AppStateV1.mk [Message.mk "user" "hello"] false true false false "en")
      "Network error" false).1
    simpa using h
  · have h := (downstream_failure_containment.2.2
      (AppStateV1.mk [Message.mk "user" "hello"] false true false false "en")
      "Hi there" false).1
    simpa using h

/-- Helper: once the unlock flag is set, no sequence of calls ever plays
another probe, and the flag stays set. -/
theorem unlockCalls_count_of_unlocked (bs : List Bool) (t : TtsState)
    (h : t.audioUnlocked = true) :
    (t.unlockCalls bs).2.count Action.audioProbe = 0 ∧
    (t.unlockCalls bs).1.audioUnlocked = true := by
  induction bs generalizing t with
  | nil => simpa [TtsState.unlockCalls] using h
  | cons b bs ih =>
      have hcall : t.unlockAudioPlayback b = (t, []) := by
        simp [TtsState.unlockAudioPlayback, h]
      have := ih t h
      simp [TtsState.unlockCalls, hcall, this.1, this.2]

/-- Helper: starting with the flag clear, the number of probes played is
one per call up to and including the first successful probe. -/
theorem unlockCalls_count_of_locked (bs : List Bool) (t : TtsState)
    (h : t.audioUnlocked = false) :
    (t.unlockCalls bs).2.count Action.audioProbe = probesNeeded bs := by
  induction bs generalizing t with
  | nil => simp [TtsState.unlockCalls, probesNeeded]
  | cons b bs ih =>
      cases b
      · cases hios : t.iosUnlocked <;>
        · have hrest := ih { t with iosUnlocked := true } (by simpa using h)
          simp_all [TtsState.unlockCalls, TtsState.unlockAudioPlayback,
                    TtsState.unlockIOSAudio, probesNeeded, Nat.add_comm]
      · cases hios : t.iosUnlocked <;>
        · have hrest := unlockCalls_count_of_unlocked bs
            { t with audioUnlocked := true, iosUnlocked := true } (by simp)
          simp_all [TtsState.unlockCalls, TtsState.unlockAudioPlayback,
                    TtsState.unlockIOSAudio, probesNeeded]

/-- C9 counterexample: the unlock probe does NOT execute exactly once
across calls, and the flag is not set before the asynchronous work.  Two
calls whose `audio.play()` probe fails both execute the probe (count 2)
and leave the flag clear; and even a successful call plays the probe
first and sets `audioUnlocked` only afterwards (the action trace starts
with the probe). -/
theorem unlock_probe_counterexample :
    ((TtsState.mk false false).unlockCalls [false, false]).2.count Action.audioProbe = 2 ∧
    ((TtsState.mk false false).unlockCalls [false, false]).1.audioUnlocked = false ∧
    ((TtsState.mk false false).unlockAudioPlayback true).2 =
      [Action.audioProbe, Action.iosProbe] := by
  decide

/-- C9 amended: `unlockAudioPlayback` is a no-op once `audioUnlocked` is
set; the flag is set only when the awaited probe succeeds — after the
asynchronous play, not synchronously before it — so a failing probe
leaves the flag clear and the next call retries; consequently the probe
runs exactly once per call up to and including the first success and
never again afterwards. -/
theorem unlock_probe_retry_semantics :
    (∀ (t : TtsState) (b : Bool), t.audioUnlocked = true →
        t.unlockAudioPlayback b = (t, []))
  ∧ (∀ t : TtsState, t.audioUnlocked = false →
        (t.unlockAudioPlayback true).1.audioUnlocked = true ∧
        (t.unlockAudioPlayback false).1.audioUnlocked = false ∧
        (t.unlockAudioPlayback false).2.count Action.audioProbe = 1)
  ∧ (∀ (t : TtsState) (bs : List Bool), t.audioUnlocked = true →
        (t.unlockCalls bs).2.count Action.audioProbe = 0)
  ∧ (∀ (t : TtsState) (bs : List Bool), t.audioUnlocked = false →
        (t.unlockCalls bs).2.count Action.audioProbe = probesNeeded bs) := by
  refine ⟨?_, ?_, ?_, ?_⟩
  · intro t b h
    simp [TtsState.unlockAudioPlayback, h]
  · intro t h
    cases hios : t.iosUnlocked <;>
      simp [TtsState.unlockAudioPlayback, TtsState.unlockIOSAudio, h, hios]
  · intro t bs h
    exact (unlockCalls_count_of_unlocked bs t h).1
  · intro t bs h
    exact unlockCalls_count_of_locked bs t h

/-- C9 amended witness: concrete sequences — an unlocked wrapper ignores
calls; a successful probe sets the flag; fail-succeed-fail plays exactly
two probes. -/
theorem unlock_probe_retry_semantics_witness :
    (TtsState.mk true true).unlockAudioPlayback false = (TtsState.mk true true, []) ∧
    ((TtsState.mk false false).unlockAudioPlayback true).1.audioUnlocked = true ∧
    ((TtsState.mk true true).unlockCalls [true, false, true]).2.count Action.audioProbe = 0 ∧
    ((TtsState.mk false false).unlockCalls [false, true, false]).2.count Action.audioProbe = 2 := by
  refine ⟨?_, ?_, ?_, ?_⟩
  · exact unlock_probe_retry_semantics.1 (TtsState.mk true true) false rfl
  · exact (unlock_probe_retry_semantics.2.1 (TtsState.mk false false) rfl).1
  · exact unlock_probe_retry_semantics.2.2.1 (TtsState.mk true true) [true, false, true] rfl
  · have h := unlock_probe_retry_semantics.2.2.2 (TtsState.mk false false) [false, true, false] rfl
    simpa [probesNeeded] using h

/-- C10 counterexample: admission is NOT "iff the decoded Basic-auth
username and password both equal the configured values".  With
`AUTH_USERNAME = alice` and `AUTH_PASSWORD = a:b`, the request carrying
`Basic base64(alice:a:b)` — whose decoded Basic-auth username is `alice`
and password (everything after the first colon) is `a:b`, both equal to
the configured values — is rejected with a 401 challenge, because the
code compares the password against only the first colon-separated
segment (`auth[1]`). -/
theorem basic_auth_counterexample :
    basicAuth (some "alice") (some "a:b") (some "Basic YWxpY2U6YTpi") =
      AuthOutcome.challenge ∧
    specUsername (base64Decode "YWxpY2U6YTpi") = "alice" ∧
    specPassword (base64Decode "YWxpY2U6YTpi") = "a:b" := by
  decide

/-- C10 amended: if either `AUTH_USERNAME` or `AUTH_PASSWORD` is unset
(or empty — JavaScript falsy), every request is admitted without the
`Authorization` header being examined.  When both are non-empty: a
request with no header gets the 401 challenge; a header with no
space-separated second field makes the middleware throw (`Buffer.from`
receives `undefined`) rather than answer 401; and a request is admitted
iff the first and second colon-separated fields of the decoded
credentials equal the configured username and password — so a configured
password containing a colon can never authenticate. -/
theorem basic_auth_characterization :
    (∀ (p hdr : Option String), basicAuth none p hdr = AuthOutcome.next)
  ∧ (∀ (u hdr : Option String), basicAuth u none hdr = AuthOutcome.next)
  ∧ (∀ (p hdr : Option String), basicAuth (some "") p hdr = AuthOutcome.next)
  ∧ (∀ (u hdr : Option String), basicAuth u (some "") hdr = AuthOutcome.next)
  ∧ (∀ (u p : String), u ≠ "" → p ≠ "" →
        basicAuth (some u) (some p) none = AuthOutcome.challenge)
  ∧ (∀ (u p h : String), u ≠ "" → p ≠ "" → (jsSplitChar ' ' h)[1]? = none →
        basicAuth (some u) (some p) (some h) = AuthOutcome.thrown)
  ∧ (∀ (u p : String) (hdr : Option String), u ≠ "" → p ≠ "" →
        (basicAuth (some u) (some p) hdr = AuthOutcome.next ↔
          ∃ h b64, hdr = some h ∧ (jsSplitChar ' ' h)[1]? = some b64 ∧
            (jsSplitChar ':' (base64Decode b64))[0]? = some u ∧
            (jsSplitChar ':' (base64Decode b64))[1]? = some p)) := by
  refine ⟨?_, ?_, ?_, ?_, ?_, ?_, ?_⟩
  · intro p hdr; simp [basicAuth, jsTruthy]
  · intro u hdr; cases u <;> simp [basicAuth, jsTruthy]
  · intro p hdr; simp [basicAuth, jsTruthy]
  · intro u hdr
    cases u with
    | none => simp [basicAuth, jsTruthy]
    | some s => by_cases hs : s = "" <;> simp [basicAuth, jsTruthy, hs]
  · intro u p hu hp
    simp [basicAuth, jsTruthy, hu, hp]
  · intro u p h hu hp hsplit
    simp [basicAuth, jsTruthy, hu, hp, hsplit]
  · intro u p hdr hu hp
    constructor
    · intro hnext
      cases hdr with
      | none => simp [basicAuth, jsTruthy, hu, hp] at hnext
      | some h =>
          refine ⟨h, ?_⟩
          cases hsp : (jsSplitChar ' ' h)[1]? with
          | none => simp [basicAuth, jsTruthy, hu, hp, hsp] at hnext
          | some b64 =>
              refine ⟨b64, rfl, rfl, ?_⟩
              by_cases hcred :
                (jsSplitChar ':' (base64Decode b64))[0]? = some u ∧
                (jsSplitChar ':' (base64Decode b64))[1]? = some p
              · exact hcred
              · simp [basicAuth, jsTruthy, hu, hp, hsp, hcred] at hnext
    · rintro ⟨h, b64, rfl, hsp, hu2, hp2⟩
      simp [basicAuth, jsTruthy, hu, hp, hsp, hu2, hp2]

/-- C10 amended witness: with the username unset every request passes;
with `bob`/`secret` configured, a missing header is challenged, a header
without a space throws, and correct credentials are admitted. -/
theorem basic_auth_characterization_witness :
    basicAuth none (some "secret") (some "Basic YWxpY2U6YTpi") = AuthOutcome.next ∧
    basicAuth (some "bob") (some "secret") none = AuthOutcome.challenge ∧
    basicAuth (some "bob") (some "secret") (some "BasicNoSpace") = AuthOutcome.thrown ∧
    basicAuth (some "bob") (some "secret") (some "Basic Ym9iOnNlY3JldA==") = AuthOutcome.next := by
  refine ⟨?_, ?_, ?_, ?_⟩
  · exact basic_auth_characterization.1 (some "secret") (some "Basic YWxpY2U6YTpi")
  · exact basic_auth_characterization.2.2.2.2.1 "bob" "secret" (by decide) (by decide)
  · exact basic_auth_characterization.2.2.2.2.2.1 "bob" "secret" "BasicNoSpace"
      (by decide) (by decide) (by decide)
  · exact (basic_auth_characterization.2.2.2.2.2.2 "bob" "secret"
      (some "Basic Ym9iOnNlY3JldA==") (by decide) (by decide)).mpr
      ⟨"Basic Ym9iOnNlY3JldA==", "Ym9iOnNlY3JldA==", rfl, by decide, by decide, by decide⟩

end VoiceChat
